import Mathlib

/-!
Verification of the event-dispatcher / protocol core of the netcoredbg
debugger (`src/debug/netcoredbg/main.cpp`).

Strings are modelled as `List Char` where induction is needed and as
`String` in the protocol formatting layer.  Machine integers (`size_t`,
`DWORD`, `ULONG`) are modelled as `Nat` with explicit `% 2^w` at the
points where the C code can wrap or truncate.  HRESULTs are `Int`
(signed 32-bit values); `FAILED(hr)` is `hr < 0`.
-/

/-! ### Output escaping (`EscapeMIValue`, main.cpp lines 140-165)

The C loop walks the string left to right; at each character of the
escape set it inserts a `\` before it, replaces the character itself by
its mnemonic, and skips past the inserted text (`i += count`).  Since
the already-processed prefix is never revisited and the inserted pair is
skipped, the loop is exactly a character-by-character expansion. -/

/-- One step of the `switch` in `EscapeMIValue`: the expansion of a single
character (the inserted backslash plus the mnemonic replacement), `[c]`
when the character is not in the escape set. -/
def escapeChar (c : Char) : List Char :=
  if c = '\"' then ['\\', '\"']
  else if c = '\\' then ['\\', '\\']
  else if c = '\x00' then ['\\', '0']
  else if c = '\x07' then ['\\', 'a']
  else if c = '\x08' then ['\\', 'b']
  else if c = '\x0c' then ['\\', 'f']
  else if c = '\x0a' then ['\\', 'n']
  else if c = '\x0d' then ['\\', 'r']
  else if c = '\x09' then ['\\', 't']
  else if c = '\x0b' then ['\\', 'v']
  else [c]

/-- `EscapeMIValue` (main.cpp 140-165) on the character list of the input
string. -/
def EscapeMIValue : List Char → List Char
  | [] => []
  | c :: rest => escapeChar c ++ EscapeMIValue rest

/-- `EscapeMIValue` on `String`, as used by the `LoadModule` handler. -/
def EscapeMIValueStr (s : String) : String :=
  String.mk (EscapeMIValue s.data)

/-- The escape set of `EscapeMIValue`: `" \ NUL \a \b \f \n \r \t \v`. -/
def inEscapeSet (c : Char) : Bool :=
  c == '\"' || c == '\\' || c == '\x00' || c == '\x07' || c == '\x08' ||
  c == '\x0c' || c == '\x0a' || c == '\x0d' || c == '\x09' || c == '\x0b'

/-- Inverse of the mnemonic replacement: maps the character following a
backslash back to the original character. -/
def unescapeChar (m : Char) : Char :=
  if m = '0' then '\x00'
  else if m = 'a' then '\x07'
  else if m = 'b' then '\x08'
  else if m = 'f' then '\x0c'
  else if m = 'n' then '\x0a'
  else if m = 'r' then '\x0d'
  else if m = 't' then '\x09'
  else if m = 'v' then '\x0b'
  else m

/-- The unescape matching `EscapeMIValue`: a backslash consumes the next
character and maps it back through `unescapeChar`; every other character
passes through. -/
def UnescapeMIValue : List Char → List Char
  | [] => []
  | [c] => [c]
  | c :: m :: rest =>
    if c = '\\' then unescapeChar m :: UnescapeMIValue rest
    else c :: UnescapeMIValue (m :: rest)

set_option maxHeartbeats 1600000 in
theorem unescape_escapeChar (c : Char) (t : List Char) :
    UnescapeMIValue (escapeChar c ++ t) = c :: UnescapeMIValue t := by
  unfold escapeChar
  split_ifs with h1 h2 h3 h4 h5 h6 h7 h8 h9 h10
  · subst h1; simp [UnescapeMIValue, unescapeChar]
  · subst h2; simp [UnescapeMIValue, unescapeChar]
  · subst h3; simp [UnescapeMIValue, unescapeChar]
  · subst h4; simp [UnescapeMIValue, unescapeChar]
  · subst h5; simp [UnescapeMIValue, unescapeChar]
  · subst h6; simp [UnescapeMIValue, unescapeChar]
  · subst h7; simp [UnescapeMIValue, unescapeChar]
  · subst h8; simp [UnescapeMIValue, unescapeChar]
  · subst h9; simp [UnescapeMIValue, unescapeChar]
  · subst h10; simp [UnescapeMIValue, unescapeChar]
  · cases t with
    | nil => simp [UnescapeMIValue]
    | cons m rest => simp [UnescapeMIValue, h2]

theorem unescape_escape (s : List Char) :
    UnescapeMIValue (EscapeMIValue s) = s := by
  induction s with
  | nil => rfl
  | cons c rest ih => simp [EscapeMIValue, unescape_escapeChar, ih]

set_option maxHeartbeats 1600000 in
theorem escapeChar_plain (c : Char) (h : inEscapeSet c = false) :
    escapeChar c = [c] := by
  unfold escapeChar
  split_ifs <;> first | rfl | simp_all [inEscapeSet]

theorem escape_plain (s : List Char) (h : ∀ c ∈ s, inEscapeSet c = false) :
    EscapeMIValue s = s := by
  induction s with
  | nil => rfl
  | cons c rest ih =>
    simp only [EscapeMIValue]
    rw [escapeChar_plain c (h c (by simp)), ih (fun x hx => h x (by simp [hx]))]
    rfl

/-- C1: escaping is total and self-inverse under the matching unescape
(`unescape(escape(S)) = S` for every string `S`); every character outside
the escape set expands to itself; a string with no escape-set characters
is returned unchanged; and escape of the empty string is empty. -/
theorem escaping_roundtrip_spec :
    (∀ s, UnescapeMIValue (EscapeMIValue s) = s) ∧
    (∀ c, inEscapeSet c = false → escapeChar c = [c]) ∧
    (∀ s, (∀ c ∈ s, inEscapeSet c = false) → EscapeMIValue s = s) ∧
    EscapeMIValue [] = [] :=
  ⟨unescape_escape, escapeChar_plain, escape_plain, rfl⟩

/-- Witness for C1: the round trip on a string containing escape-set
characters, and pass-through on a plain string. -/
theorem escaping_roundtrip_spec_witness :
    UnescapeMIValue (EscapeMIValue ['a', '\x0a', '\\', '\"']) =
      ['a', '\x0a', '\\', '\"'] ∧
    EscapeMIValue ['p', 'q'] = ['p', 'q'] :=
  ⟨escaping_roundtrip_spec.1 ['a', '\x0a', '\\', '\"'],
   escaping_roundtrip_spec.2.2.1 ['p', 'q'] (by decide)⟩

/-! ### Safe memory reader (`NextOSPageAddress`, `SafeReadMemory`,
main.cpp lines 56-94)

`OSPageSize()` is an external platform call; the page size is a
parameter here.  Addresses and sizes are `size_t`, modelled as `Nat`
with the 64-bit wrap made explicit where the C arithmetic can wrap.
`ICorDebugProcess::ReadMemory` is an external native call, modelled as
an oracle returning its success flag and the byte count it stores. -/

/-- `NextOSPageAddress(addr)` = `(addr+pageSize)&(~(pageSize-1))` on
64-bit `size_t`. -/
def NextOSPageAddress (pageSize addr : Nat) : Nat :=
  ((addr + pageSize) % 2 ^ 64) &&& ((2 ^ 64 - 1) ^^^ ((pageSize - 1) % 2 ^ 64))

/-- Result of one `ICorDebugProcess::ReadMemory` call: the `SUCCEEDED`
flag and the value stored through the `bytesRead` out-parameter. -/
structure ReadResult where
  ok : Bool
  bytesRead : Nat
deriving DecidableEq

/-- `SafeReadMemory` (main.cpp 70-94).  Returns the `BOOL` result and the
value stored through `lpcbBytesRead` (`none` when the function returns
`FALSE` before writing it, i.e. when no process is registered).  On a
failed first read the request is retried with
`cb = (ULONG)(NextOSPageAddress(offset) - offset)` (the `ULONG` cast is
the `% 2^32`). -/
def SafeReadMemory (read : Nat → Nat → ReadResult) (pageSize : Nat)
    (gProcess : Option Nat) (offset cb : Nat) : Bool × Option Nat :=
  match gProcess with
  | none => (false, none)
  | some _ =>
    let r1 := read offset cb
    if r1.ok then (r1.ok, some r1.bytesRead)
    else
      let cb2 := (NextOSPageAddress pageSize offset - offset) % 2 ^ 32
      let r2 := read offset cb2
      (r2.ok, some r2.bytesRead)

/-- An oracle failing exactly on 4-byte requests and otherwise reading
the full request; it respects the `ReadMemory` contract
(`bytesRead ≤ requested`). -/
def read0 (_a l : Nat) : ReadResult :=
  if l = 4 then ⟨false, 0⟩ else ⟨true, l⟩

/-- An always-succeeding full-length read oracle. -/
def readOk (_a l : Nat) : ReadResult := ⟨true, l⟩

/-- C2 counterexample: with a page size of 4096, a 4-byte read at
address 0 whose first attempt fails makes `SafeReadMemory` store a byte
count of 4096 — greater than the 4 bytes requested — even though the
underlying read oracle never reports more bytes than its own request. -/
theorem safeReadMemory_count_exceeds_request :
    (∀ a l, (read0 a l).bytesRead ≤ l) ∧
    (SafeReadMemory read0 4096 (some 1) 0 4).2 = some 4096 ∧
    ¬(4096 ≤ 4) := by
  refine ⟨?_, by decide, by decide⟩
  intro a l
  unfold read0
  split
  · exact Nat.zero_le l
  · exact Nat.le_refl l

/-- C2 (amended): assuming the native `ReadMemory` contract
(`bytesRead ≤ requested`), the count stored by `SafeReadMemory` is at
most the request when the first read succeeds; when the first read
fails, the fallback requests exactly the distance to the next OS page
boundary (truncated to `ULONG`) and the stored count never exceeds that
distance; hence the stored count never exceeds the larger of the two. -/
theorem safeReadMemory_bounds (read : Nat → Nat → ReadResult)
    (pageSize offset cb : Nat) (gProcess : Option Nat)
    (hc : ∀ a l, (read a l).bytesRead ≤ l) (n : Nat)
    (hn : (SafeReadMemory read pageSize gProcess offset cb).2 = some n) :
    ((read offset cb).ok = true → n ≤ cb) ∧
    ((read offset cb).ok = false →
      n ≤ (NextOSPageAddress pageSize offset - offset) % 2 ^ 32) ∧
    n ≤ max cb ((NextOSPageAddress pageSize offset - offset) % 2 ^ 32) := by
  cases gProcess with
  | none => simp [SafeReadMemory] at hn
  | some h =>
    unfold SafeReadMemory at hn
    cases hok : (read offset cb).ok with
    | true =>
      simp only [hok, if_true, Option.some.injEq] at hn
      subst hn
      exact ⟨fun _ => hc offset cb,
        fun habs => absurd habs (by decide),
        le_max_of_le_left (hc offset cb)⟩
    | false =>
      simp only [hok, Bool.false_eq_true, if_false, Option.some.injEq] at hn
      subst hn
      refine ⟨fun habs => absurd habs (by decide), fun _ => ?_,
        le_max_of_le_right ?_⟩
      · exact hc offset ((NextOSPageAddress pageSize offset - offset) % 2 ^ 32)
      · exact hc offset ((NextOSPageAddress pageSize offset - offset) % 2 ^ 32)

/-- Witness for the amended C2 at a concrete successful read. -/
theorem safeReadMemory_bounds_witness :
    (4 : Nat) ≤ 4 ∧
    (4 : Nat) ≤ max 4 ((NextOSPageAddress 4096 0 - 0) % 2 ^ 32) := by
  have h := safeReadMemory_bounds readOk 4096 0 4 (some 1)
    (fun a l => Nat.le_refl l) 4 rfl
  exact ⟨h.1 rfl, h.2.2⟩

/-! ### Process lifecycle registry, output serializer and dispatcher state

The observable state touched by the event dispatcher and the façade:
the serialized output stream (`out_printf` lines, in emission order),
the number of `Continue(0)` calls issued against the debuggee
controller, the last-stopped-thread scalar (`g_lastStoppedThreadId`),
the registry's process handle (`g_process`) and the count of
`NotifyEvalComplete` wake-ups. -/

/-- Truncation of an unsigned value to a C `int` (the `(int)threadId`
casts and the `int g_lastStoppedThreadId` assignment). -/
def toInt32 (n : Nat) : Int :=
  if n % 2 ^ 32 < 2 ^ 31 then ((n % 2 ^ 32 : Nat) : Int)
  else ((n % 2 ^ 32 : Nat) : Int) - 2 ^ 32

/-- The shared mutable state of main.cpp visible to the claims. -/
structure DebugState where
  out : List String
  continueCount : Nat
  lastStoppedThreadId : Int
  gProcess : Option Nat
  evalNotified : Nat

/-- `out_printf` (main.cpp 98-113): append one formatted line to the
serialized output stream. -/
def out_printf (line : String) (s : DebugState) : DebugState :=
  { s with out := s.out ++ [line] }

/-- A `Continue(0)` call on the debuggee controller
(`ICorDebugController` is the base of `ICorDebugAppDomain` and
`ICorDebugProcess`, so every `pAppDomain->Continue(0)` /
`pProcess->Continue(0)` / `controller->Continue(0)` is one such call). -/
def ICorDebugController.Continue (s : DebugState) : DebugState :=
  { s with continueCount := s.continueCount + 1 }

/-- `SetLastStoppedThread` (main.cpp 221-228): store the thread's DWORD
id in the `int` scalar. -/
def SetLastStoppedThread (threadId : Nat) (s : DebugState) : DebugState :=
  { s with lastStoppedThreadId := toInt32 threadId }

/-- `GetLastStoppedThreadId` (main.cpp 230-234). -/
def GetLastStoppedThreadId (s : DebugState) : Int :=
  s.lastStoppedThreadId

/-- `ProcessCreated` (main.cpp 33-38): register the process handle. -/
def ProcessCreated (handle : Nat) (s : DebugState) : DebugState :=
  { s with gProcess := some handle }

/-- `NotifyProcessExited` (main.cpp 40-47): release and clear the handle,
wake the exit waiter. -/
def NotifyProcessExited (s : DebugState) : DebugState :=
  { s with gProcess := none }

/-- `NotifyEvalComplete` (valuewalk collaborator): wake evaluation
waiters; modelled as a wake-up counter. -/
def NotifyEvalComplete (s : DebugState) : DebugState :=
  { s with evalNotified := s.evalNotified + 1 }

/-- `WaitProcessExited` (main.cpp 49-54): returns (with the state it
observed) when the registry holds no process; `none` models the call
blocking forever because nothing in the modelled execution will clear
the handle. -/
def WaitProcessExited (s : DebugState) : Option DebugState :=
  if s.gProcess = none then some s else none

/-! ### Event dispatcher (`ManagedCallback`, main.cpp 267-633)

The collaborator results consulted by a handler (thread id from
`GetID`, breakpoint id from `FindCurrentBreakpointId`, frame rendering
from `GetActiveFrame`/`PrintFrameLocation`, exception info from
`GetExceptionInfo`, module info from `TryLoadModuleSymbols`) are an
environment record; each handler is a function on `DebugState`. -/

/-- Collaborator results for one notification. -/
structure CallbackEnv where
  threadId : Nat
  breakpointId : Nat
  frameOk : Bool
  frameText : String
  excType : String
  excModule : String
  moduleId : String
  moduleName : String
  symbolsLoaded : Bool
  baseAddress : Nat
  size : Nat

/-- The frame text used in the stop lines: `PrintFrameLocation` output
when `GetActiveFrame` succeeded, empty otherwise. -/
def frameOutput (env : CallbackEnv) : String :=
  if env.frameOk then env.frameText else ""

/-- `ManagedCallback::Breakpoint` (main.cpp 326-348). -/
def ManagedCallback.Breakpoint (env : CallbackEnv) (s : DebugState) :
    DebugState :=
  SetLastStoppedThread env.threadId
    (out_printf
      ("*stopped,reason=\"breakpoint-hit\",thread-id=\"" ++
        toString (toInt32 env.threadId) ++
        "\",stopped-threads=\"all\",bkptno=\"" ++
        toString env.breakpointId ++ "\",frame=\x7b" ++
        frameOutput env ++ "\x7d\n") s)

/-- `ManagedCallback::StepComplete` (main.cpp 350-370). -/
def ManagedCallback.StepComplete (env : CallbackEnv) (s : DebugState) :
    DebugState :=
  SetLastStoppedThread env.threadId
    (out_printf
      ("*stopped,reason=\"end-stepping-range\",thread-id=\"" ++
        toString (toInt32 env.threadId) ++
        "\",stopped-threads=\"all\"," ++ frameOutput env ++ "\n") s)

/-- `ManagedCallback::Exception` (main.cpp 376-405): record the
last-stopped thread, then either emit the stop line (unhandled, no
resume) or emit the informational message and `Continue(0)` (handled). -/
def ManagedCallback.Exception (env : CallbackEnv) (unhandled : Bool)
    (s : DebugState) : DebugState :=
  let s0 := SetLastStoppedThread env.threadId s
  if unhandled then
    out_printf
      ("*stopped,reason=\"exception-received\",exception-stage=\"" ++
        (if unhandled then "unhandled" else "handled") ++
        "\",thread-id=\"" ++ toString (toInt32 env.threadId) ++
        "\",stopped-threads=\"all\"," ++ frameOutput env ++ "\n") s0
  else
    ICorDebugController.Continue
      (out_printf
        ("=message,text=\"Exception thrown: \x27" ++ env.excType ++
          "\x27 in " ++ env.excModule ++
          "\\n\",send-to=\"output-window\",source=\"target-exception\"\n") s0)

/-- `ManagedCallback::CreateProcess` (main.cpp 425-432). -/
def ManagedCallback.CreateProcess (handle : Nat) (s : DebugState) :
    DebugState :=
  ICorDebugController.Continue (ProcessCreated handle s)

/-- `ManagedCallback::ExitProcess` (main.cpp 434-441): the exit line
always prints the literal `0` exit code. -/
def ManagedCallback.ExitProcess (s : DebugState) : DebugState :=
  NotifyProcessExited
    (NotifyEvalComplete
      (out_printf
        ("*stopped,reason=\"exited\",exit-code=\"" ++
          toString (0 : Int) ++ "\"\n") s))

/-- `ManagedCallback::CreateThread` (main.cpp 443-452). -/
def ManagedCallback.CreateThread (env : CallbackEnv) (s : DebugState) :
    DebugState :=
  ICorDebugController.Continue
    (out_printf
      ("=thread-created,id=\"" ++ toString (toInt32 env.threadId) ++ "\"\n") s)

/-- `ManagedCallback::LoadModule` (main.cpp 462-488).
`TryResolveBreakpointsForModule` is an external collaborator with no
effect on the modelled state. -/
def ManagedCallback.LoadModule (env : CallbackEnv) (s : DebugState) :
    DebugState :=
  let name := EscapeMIValueStr env.moduleName
  let ss :=
    "id=\"\x7b" ++ env.moduleId ++ "\x7d\"," ++
    "target-name=\"" ++ name ++ "\"," ++
    "host-name=\"" ++ name ++ "\"," ++
    "symbols-loaded=\"" ++ (if env.symbolsLoaded then "1" else "0") ++ "\"," ++
    "base-address=\"0x" ++ String.mk (Nat.toDigits 16 env.baseAddress) ++
    "\"," ++ "size=\"" ++ toString env.size ++ "\""
  ICorDebugController.Continue (out_printf ("=library-loaded," ++ ss ++ "\n") s)

/-- `ManagedCallback::CreateAppDomain` (main.cpp 522-529). -/
def ManagedCallback.CreateAppDomain (s : DebugState) : DebugState :=
  ICorDebugController.Continue s

/-- `ManagedCallback::LogMessage` (main.cpp 507-512). -/
def ManagedCallback.LogMessage (s : DebugState) : DebugState :=
  ICorDebugController.Continue s

/-! ### Debugger façade (main.cpp 635-748)

`m_pProcess` / `m_pDebug` are the façade's two native handles; only
their null-ness is observable to the claims.  `Stop(0)`,
`DisableAllBreakpointsAndSteppers`, `Detach()`, `CleanupAllModules`,
`Release()` and `Terminate()` are external native calls; the detach
model records which of them were issued.  `m_pProcess->Terminate(0)`
kills the debuggee, which makes the runtime deliver the `ExitProcess`
notification on its own thread; whether that delivery happens before
`WaitProcessExited` can return is the `exitRuns` parameter of the
terminate model. -/

/-- HRESULT `S_OK`. -/
def S_OK : Int := 0

/-- HRESULT `E_FAIL` (`0x80004005` as a signed 32-bit value). -/
def E_FAIL : Int := -2147467259

/-- HRESULT `E_INVALIDARG` (`0x80070057` as a signed 32-bit value). -/
def E_INVALIDARG : Int := -2147024809

/-- The façade's handle state: whether `m_pProcess` and `m_pDebug` are
non-null. -/
structure Facade where
  mPProcess : Bool
  mPDebug : Bool
deriving DecidableEq

/-- Which cleanup steps `Debugger::DetachFromProcess` issued. -/
structure DetachTrace where
  stopCalled : Bool
  disableCalled : Bool
  detachCalled : Bool
  modulesCleaned : Bool
  processReleased : Bool
  interfaceTerminated : Bool
deriving DecidableEq

/-- `Debugger::DetachFromProcess` (main.cpp 640-661).  `stopOk` is
whether `m_pProcess->Stop(0)` succeeded; `DisableAllBreakpointsAndSteppers`
and `m_pProcess->Detach()` are both inside the `SUCCEEDED(Stop)` branch. -/
def Debugger.DetachFromProcess (stopOk : Bool) (f : Facade) :
    Int × Facade × DetachTrace :=
  if f.mPProcess = false || f.mPDebug = false then
    (E_FAIL, f, ⟨false, false, false, false, false, false⟩)
  else
    (S_OK, ⟨false, false⟩, ⟨true, stopOk, stopOk, true, true, true⟩)

/-- `Debugger::TerminateProcess` (main.cpp 663-687): stop, disable,
cleanup, `Terminate(0)`, then `WaitProcessExited()`.  When `exitRuns`
the runtime delivers the `ExitProcess` notification (which clears the
registry) before the wait is re-examined; `none` models the call never
returning because the wait never unblocks. -/
def Debugger.TerminateProcess (exitRuns : Bool) (f : Facade)
    (s : DebugState) : Option (Int × Facade × DebugState) :=
  if f.mPProcess = false || f.mPDebug = false then some (E_FAIL, f, s)
  else
    let s1 := if exitRuns then ManagedCallback.ExitProcess s else s
    match WaitProcessExited s1 with
    | none => none
    | some s2 => some (S_OK, ⟨false, false⟩, s2)

/-- Results of the external calls made by `Debugger::AttachToProcess`:
`GetCoreCLRPath` (none = empty path, "runtime not found") and the
HRESULTs of the native construction chain. -/
structure AttachEnv where
  coreclrPath : Option String
  createVersionStringHR : Int
  createDbgInterfaceHR : Int
  queryInterfaceHR : Int
  initHR : Int
  setManagedHandlerHR : Int
  debugActiveProcessHR : Int

/-- The body of `Debugger::AttachToProcess` after the already-attached
check (main.cpp 703-747): each `IfFailRet` propagates a failing HRESULT
and the partially constructed interface is torn down on the error path;
on success both façade handles become non-null. -/
def attachBody (env : AttachEnv) (f : Facade) (s : DebugState) :
    Int × Facade × DebugState :=
  match env.coreclrPath with
  | none => (E_INVALIDARG, f, s)
  | some _ =>
    if env.createVersionStringHR < 0 then (env.createVersionStringHR, f, s)
    else if env.createDbgInterfaceHR < 0 then (env.createDbgInterfaceHR, f, s)
    else if env.queryInterfaceHR < 0 then (env.queryInterfaceHR, f, s)
    else if env.initHR < 0 then (env.initHR, f, s)
    else if env.setManagedHandlerHR < 0 then (env.setManagedHandlerHR, f, s)
    else if env.debugActiveProcessHR < 0 then (env.debugActiveProcessHR, f, s)
    else (S_OK, ⟨true, true⟩, s)

/-- `Debugger::AttachToProcess` (main.cpp 689-748): if the façade holds a
previous session, fail with `E_FAIL` when the registry still holds a
process ("already attached"), otherwise terminate the stale session
first; then run the construction chain. -/
def Debugger.AttachToProcess (env : AttachEnv) (exitRuns : Bool)
    (f : Facade) (s : DebugState) : Option (Int × Facade × DebugState) :=
  if f.mPProcess || f.mPDebug then
    if s.gProcess.isSome then some (E_FAIL, f, s)
    else
      match Debugger.TerminateProcess exitRuns f s with
      | none => none
      | some (_, f2, s2) => some (attachBody env f2 s2)
  else some (attachBody env f s)

/-! ### Concrete fixtures used by the scenario claims and witnesses -/

/-- Environment of the C6 scenario: thread id 7, breakpoint id 3, frame
rendered as `Program.Main() Line 10`. -/
def bpScenarioEnv : CallbackEnv :=
  { threadId := 7
    breakpointId := 3
    frameOk := true
    frameText := "Program.Main() Line 10"
    excType := ""
    excModule := ""
    moduleId := ""
    moduleName := ""
    symbolsLoaded := false
    baseAddress := 0
    size := 0 }

/-- A dispatcher state with no output, no continues and an empty
registry. -/
def emptyState : DebugState :=
  { out := []
    continueCount := 0
    lastStoppedThreadId := 0
    gProcess := none
    evalNotified := 0 }

/-- A dispatcher state whose registry holds a live process handle. -/
def attachedState : DebugState :=
  { emptyState with gProcess := some 1 }

/-- A façade holding both session handles. -/
def attachedFacade : Facade := ⟨true, true⟩

/-- A façade holding neither session handle. -/
def idleFacade : Facade := ⟨false, false⟩

/-- An attach environment in which no managed runtime image is found and
every native call would succeed. -/
def noRuntimeEnv : AttachEnv :=
  { coreclrPath := none
    createVersionStringHR := 0
    createDbgInterfaceHR := 0
    queryInterfaceHR := 0
    initHR := 0
    setManagedHandlerHR := 0
    debugActiveProcessHR := 0 }

/-! ### The dispatcher claims -/

/-- C3: for each stop-class notification — breakpoint hit, step
complete, unhandled exception — the handler returns without issuing any
`Continue` call on the debuggee controller: the continue-call count is
unchanged across the handler invocation. -/
theorem stop_events_do_not_continue (env : CallbackEnv) (s : DebugState) :
    (ManagedCallback.Breakpoint env s).continueCount = s.continueCount ∧
    (ManagedCallback.StepComplete env s).continueCount = s.continueCount ∧
    (ManagedCallback.Exception env true s).continueCount = s.continueCount :=
  ⟨rfl, rfl, rfl⟩

/-- C4: for each non-stop notification — thread created, module loaded,
handled first-chance exception, app-domain created, log message — the
handler issues exactly one `Continue` call before returning. -/
theorem nonstop_events_continue_once (env : CallbackEnv) (s : DebugState) :
    (ManagedCallback.CreateThread env s).continueCount = s.continueCount + 1 ∧
    (ManagedCallback.LoadModule env s).continueCount = s.continueCount + 1 ∧
    (ManagedCallback.Exception env false s).continueCount =
      s.continueCount + 1 ∧
    (ManagedCallback.CreateAppDomain s).continueCount = s.continueCount + 1 ∧
    (ManagedCallback.LogMessage s).continueCount = s.continueCount + 1 :=
  ⟨rfl, rfl, rfl, rfl, rfl⟩

/-- C6: the breakpoint-hit notification for thread id 7, breakpoint id 3
and frame text `Program.Main() Line 10` emits exactly the expected
`*stopped` line (followed by a newline) and sets the
last-stopped-thread scalar to 7. -/
theorem breakpoint_hit_scenario (s : DebugState) :
    (ManagedCallback.Breakpoint bpScenarioEnv s).out =
      s.out ++
        ["*stopped,reason=\"breakpoint-hit\",thread-id=\"7\",stopped-threads=\"all\",bkptno=\"3\",frame=\x7bProgram.Main() Line 10\x7d\n"] ∧
    (ManagedCallback.Breakpoint bpScenarioEnv s).lastStoppedThreadId = 7 :=
  ⟨rfl, rfl⟩

/-- C9: every process-exited notification emits exactly
`*stopped,reason="exited",exit-code="0"` (plus newline): the exit code
printed is the literal `0`, independent of the debuggee's actual exit
status (the handler receives no exit status at all). -/
theorem exit_process_emits_literal_zero (s : DebugState) :
    (ManagedCallback.ExitProcess s).out =
      s.out ++ ["*stopped,reason=\"exited\",exit-code=\"0\"\n"] :=
  rfl

/-- C10: the exception handler records the notifying thread as the
last-stopped thread for every exception notification — including the
handled (first-chance) one, which then auto-continues. -/
theorem exception_always_records_thread (env : CallbackEnv) (u : Bool)
    (s : DebugState) :
    (ManagedCallback.Exception env u s).lastStoppedThreadId =
      toInt32 env.threadId ∧
    (ManagedCallback.Exception env false s).continueCount =
      s.continueCount + 1 := by
  cases u <;> exact ⟨rfl, rfl⟩

/-! ### The façade claims -/

/-- C5: `TerminateProcess` while attached blocks until the
process-exited notification has run: if the notification is never
delivered while the registry holds a process, the call never returns;
when the notification runs, the call returns `S_OK` with the registry
empty and both façade handles cleared, and a subsequent
`AttachToProcess` on the same façade proceeds straight to the attach
body — it cannot fail with the "already attached" `E_FAIL`. -/
theorem terminate_waits_for_exit_then_reattach (f : Facade) (s : DebugState)
    (env : AttachEnv) (b : Bool)
    (hp : f.mPProcess = true) (hd : f.mPDebug = true) :
    (s.gProcess ≠ none → Debugger.TerminateProcess false f s = none) ∧
    Debugger.TerminateProcess true f s =
      some (S_OK, idleFacade, ManagedCallback.ExitProcess s) ∧
    (ManagedCallback.ExitProcess s).gProcess = none ∧
    Debugger.AttachToProcess env b idleFacade (ManagedCallback.ExitProcess s) =
      some (attachBody env idleFacade (ManagedCallback.ExitProcess s)) := by
  refine ⟨?_, ?_, rfl, rfl⟩
  · intro hne
    unfold Debugger.TerminateProcess WaitProcessExited
    simp [hp, hd, hne]
  · unfold Debugger.TerminateProcess WaitProcessExited
    simp [hp, hd, idleFacade, ManagedCallback.ExitProcess,
      NotifyProcessExited, NotifyEvalComplete, out_printf]

/-- Witness for C5 at a concrete attached façade and registry state. -/
theorem terminate_waits_for_exit_then_reattach_witness :
    Debugger.TerminateProcess false attachedFacade attachedState = none ∧
    Debugger.TerminateProcess true attachedFacade attachedState =
      some (S_OK, idleFacade, ManagedCallback.ExitProcess attachedState) := by
  have h := terminate_waits_for_exit_then_reattach attachedFacade
    attachedState noRuntimeEnv false rfl rfl
  exact ⟨h.1 (by decide), h.2.1⟩

/-- C7: `AttachToProcess` on an idle façade, when no managed runtime
image can be located for the target process, fails with the distinct
"runtime not found" error `E_INVALIDARG` (not the "already attached"
`E_FAIL`) and leaves the state — in particular the empty registry —
untouched. -/
theorem attach_runtime_not_found (env : AttachEnv) (b : Bool) (f : Facade)
    (s : DebugState) (hc : env.coreclrPath = none)
    (hp : f.mPProcess = false) (hd : f.mPDebug = false)
    (hg : s.gProcess = none) :
    Debugger.AttachToProcess env b f s = some (E_INVALIDARG, f, s) ∧
    (∀ r, Debugger.AttachToProcess env b f s = some r →
      r.2.2.gProcess = none) ∧
    E_INVALIDARG ≠ E_FAIL := by
  have hmain : Debugger.AttachToProcess env b f s =
      some (E_INVALIDARG, f, s) := by
    unfold Debugger.AttachToProcess
    rw [hp, hd]
    simp only [Bool.false_or, Bool.false_eq_true, if_false]
    unfold attachBody
    rw [hc]
  refine ⟨hmain, ?_, by decide⟩
  intro r hr
  rw [hmain] at hr
  cases hr
  exact hg

/-- Witness for C7 at a concrete idle façade and empty registry. -/
theorem attach_runtime_not_found_witness :
    Debugger.AttachToProcess noRuntimeEnv false idleFacade emptyState =
      some (E_INVALIDARG, idleFacade, emptyState) :=
  (attach_runtime_not_found noRuntimeEnv false idleFacade emptyState
    rfl rfl rfl rfl).1

/-- C8 counterexample: detaching while attached with a failing `Stop(0)`
call does NOT issue the detach call — `m_pProcess->Detach()` sits inside
the `SUCCEEDED(Stop)` branch, so it is skipped together with the
breakpoint/stepper disabling, contradicting the claim that only the
disabling is skipped. -/
theorem detach_stop_fail_skips_detach :
    (Debugger.DetachFromProcess false attachedFacade).2.2.detachCalled =
      false :=
  rfl

/-- C8 (amended): when `Stop(0)` fails, both the breakpoint/stepper
disabling and the detach call are skipped; module bookkeeping is still
released, the process reference released and the native interface
terminated, and the façade always ends idle with `S_OK`. -/
theorem detach_best_effort_cleanup (stopOk : Bool) (f : Facade)
    (hp : f.mPProcess = true) (hd : f.mPDebug = true) :
    (Debugger.DetachFromProcess stopOk f).1 = S_OK ∧
    (Debugger.DetachFromProcess stopOk f).2.1 = idleFacade ∧
    (Debugger.DetachFromProcess stopOk f).2.2.disableCalled = stopOk ∧
    (Debugger.DetachFromProcess stopOk f).2.2.detachCalled = stopOk ∧
    (Debugger.DetachFromProcess stopOk f).2.2.modulesCleaned = true ∧
    (Debugger.DetachFromProcess stopOk f).2.2.processReleased = true ∧
    (Debugger.DetachFromProcess stopOk f).2.2.interfaceTerminated = true := by
  unfold Debugger.DetachFromProcess
  rw [hp, hd]
  simp [idleFacade]

/-- Witness for the amended C8 with a failing stop call. -/
theorem detach_best_effort_cleanup_witness :
    (Debugger.DetachFromProcess false attachedFacade).1 = S_OK ∧
    (Debugger.DetachFromProcess false attachedFacade).2.1 = idleFacade :=
  have h := detach_best_effort_cleanup false attachedFacade rfl rfl
  ⟨h.1, h.2.1⟩
